import Mathlib

/-!
Verification of the TikTok-username IP-lookup script (src/a.py).

The script defines one function, `get_ip_from_tiktok_username`, and a
module-level driver wrapped in a try/except block.  The only effectful
primitive is `socket.gethostbyname`; we model it as an abstract resolver
`String → Except String String`, where `Except.error cause` stands for a
raised `socket.gaierror` whose message text (`str(e)`) is `cause`.  The
function is embedded together with the list of arguments it passes to the
resolver, so that claims about how often and with what argument the
resolution primitive is invoked become statements about that trace.
-/

/-- A Python exception value as raised by the script: either a `ValueError`
or a `socket.gaierror`, each carrying its message string (what `str(e)`
prints). -/
inductive PyError where
  | valueError (msg : String)
  | gaiError (msg : String)
deriving DecidableEq, Repr

/-- `str(e)` for an exception constructed with a single string argument. -/
def PyError.msg : PyError → String
  | .valueError m => m
  | .gaiError m => m

/-- Whether the exception is of kind `socket.gaierror`. -/
def PyError.isGai : PyError → Bool
  | .valueError _ => false
  | .gaiError _ => true

/-- The host environment's name-resolution primitive `socket.gethostbyname`:
given its string argument it either returns an address string (`Except.ok`)
or fails with a `socket.gaierror` whose message text is the `Except.error`
payload. -/
def Resolver : Type := String → Except String String

/-- `get_ip_from_tiktok_username` (src/a.py lines 4-31).  Returns the Python
result — the returned address or the raised exception — paired with the
list of arguments passed to `socket.gethostbyname`, in call order.

```python
if not username:
    raise ValueError("Invalid TikTok username provided.")
try:
    url = f"https://www.tiktok.com/@\x7busername\x7d"
    ip_address = socket.gethostbyname(url)
    return ip_address
except socket.gaierror as e:
    raise socket.gaierror(f"Error getting IP address for \x7busername\x7d: \x7be\x7d")
```
-/
def get_ip_from_tiktok_username (resolver : Resolver) (username : String) :
    Except PyError String × List String :=
  if username = "" then
    (Except.error (PyError.valueError "Invalid TikTok username provided."), [])
  else
    let url := "https://www.tiktok.com/@" ++ username
    match resolver url with
    | Except.ok ip_address => (Except.ok ip_address, [url])
    | Except.error e =>
        (Except.error
          (PyError.gaiError ("Error getting IP address for " ++ username ++ ": " ++ e)),
         [url])

/-- The body of the module-level try/except block (src/a.py lines 34-39),
factored over the result of the function call: the lines printed to standard
output and the process exit code.  Both exception kinds the block catches
(`ValueError`, `socket.gaierror`) are converted to a printed message and the
process exits normally (exit code 0) in every branch. -/
def handle_result (tiktok_username : String) (res : Except PyError String) :
    List String × Nat :=
  match res with
  | Except.ok ip_address =>
      (["The IP address for TikTok username '" ++ tiktok_username ++ "' is: "
          ++ ip_address], 0)
  | Except.error e => (["Error: " ++ e.msg], 0)

/-- The module-level driver (src/a.py lines 34-39): supplies the hardcoded
identifier "80alaajutt", invokes `get_ip_from_tiktok_username`, and prints
one line. -/
def driver (resolver : Resolver) : List String × Nat :=
  handle_result "80alaajutt"
    (get_ip_from_tiktok_username resolver "80alaajutt").1

/-! ## Claim theorems -/

/-- C1: for every non-empty identifier, the (single) string passed to the
hostname-resolution primitive equals the fixed URL template with the
identifier spliced in — "https://www.tiktok.com/@" ++ username, a full URL
string rather than a bare hostname. -/
theorem c1_resolver_receives_full_url (resolver : Resolver) (username : String)
    (h : username ≠ "") :
    (get_ip_from_tiktok_username resolver username).2 =
      ["https://www.tiktok.com/@" ++ username] := by
  unfold get_ip_from_tiktok_username
  rw [if_neg h]
  cases hres : resolver ("https://www.tiktok.com/@" ++ username) <;> simp [hres]

/-- Witness for C1 at the concrete identifier "alice" and a resolver that
succeeds. -/
theorem c1_resolver_receives_full_url_witness :
    "alice" ≠ "" ∧
      (get_ip_from_tiktok_username (fun _ => Except.ok "1.2.3.4") "alice").2 =
        ["https://www.tiktok.com/@" ++ "alice"] :=
  ⟨by decide, c1_resolver_receives_full_url (fun _ => Except.ok "1.2.3.4") "alice" (by decide)⟩

/-- C2: for the empty identifier the function raises
`ValueError("Invalid TikTok username provided.")` and the resolver is never
invoked (the call trace is empty). -/
theorem c2_empty_username_valueerror_no_resolution (resolver : Resolver) :
    get_ip_from_tiktok_username resolver "" =
      (Except.error (PyError.valueError "Invalid TikTok username provided."), []) :=
  rfl

/-- C3: for a non-empty identifier, when the resolver fails on the
constructed URL with some cause, the function raises a resolution error whose
message is exactly "Error getting IP address for <id>: <cause>". -/
theorem c3_resolution_failure_wrapped_message (resolver : Resolver)
    (username cause : String) (h : username ≠ "")
    (hres : resolver ("https://www.tiktok.com/@" ++ username) = Except.error cause) :
    (get_ip_from_tiktok_username resolver username).1 =
      Except.error
        (PyError.gaiError ("Error getting IP address for " ++ username ++ ": " ++ cause)) := by
  unfold get_ip_from_tiktok_username
  rw [if_neg h]
  simp only [hres]

/-- Witness for C3 at identifier "alice" and a resolver failing with a fixed
cause. -/
theorem c3_resolution_failure_wrapped_message_witness :
    "alice" ≠ "" ∧
      (get_ip_from_tiktok_username
          (fun _ => Except.error "lookup failed") "alice").1 =
        Except.error
          (PyError.gaiError "Error getting IP address for alice: lookup failed") :=
  ⟨by decide,
    c3_resolution_failure_wrapped_message (fun _ => Except.error "lookup failed")
      "alice" "lookup failed" (by decide) rfl⟩

/-- C4: for every non-empty identifier, exactly one resolution call is
attempted, against the constructed URL, and the run either returns a
non-empty textual address — the resolver's result, unchanged — or raises the
resolution error.  Non-emptiness of a successful result is inherited from
the resolution primitive, so it is assumed of the resolver (the contract of
`socket.gethostbyname`, which on success returns an address string). -/
theorem c4_single_resolution_call_result (resolver : Resolver) (username : String)
    (h : username ≠ "")
    (hok : ∀ s r, resolver s = Except.ok r → r ≠ "") :
    (get_ip_from_tiktok_username resolver username).2 =
        ["https://www.tiktok.com/@" ++ username] ∧
      ((∃ addr, (get_ip_from_tiktok_username resolver username).1 = Except.ok addr ∧
          resolver ("https://www.tiktok.com/@" ++ username) = Except.ok addr ∧
          addr ≠ "") ∨
        (∃ m, (get_ip_from_tiktok_username resolver username).1 =
          Except.error (PyError.gaiError m))) := by
  unfold get_ip_from_tiktok_username
  rw [if_neg h]
  cases hres : resolver ("https://www.tiktok.com/@" ++ username) with
  | ok addr =>
      refine ⟨?_, Or.inl ⟨addr, ?_, ?_, hok _ addr hres⟩⟩ <;> simp [hres]
  | error e =>
      refine ⟨?_, Or.inr ⟨"Error getting IP address for " ++ username ++ ": " ++ e, ?_⟩⟩ <;>
        simp [hres]

/-- Witness for C4 at identifier "alice" and a resolver that always returns
"1.2.3.4". -/
theorem c4_single_resolution_call_result_witness :
    "alice" ≠ "" ∧
      ((get_ip_from_tiktok_username (fun _ => Except.ok "1.2.3.4") "alice").2 =
          ["https://www.tiktok.com/@" ++ "alice"] ∧
        ((∃ addr, (get_ip_from_tiktok_username (fun _ => Except.ok "1.2.3.4") "alice").1 =
            Except.ok addr ∧
            (fun _ : String => Except.ok (ε := String) "1.2.3.4")
              ("https://www.tiktok.com/@" ++ "alice") = Except.ok addr ∧
            addr ≠ "") ∨
          (∃ m, (get_ip_from_tiktok_username (fun _ => Except.ok "1.2.3.4") "alice").1 =
            Except.error (PyError.gaiError m)))) :=
  ⟨by decide,
    c4_single_resolution_call_result (fun _ => Except.ok "1.2.3.4") "alice" (by decide)
      (by intro s r hr; rw [← Except.ok.inj hr]; decide)⟩

/-- C5: on every run the driver writes exactly one line to standard output,
either the success line for identifier "80alaajutt" or an error line of the
form "Error: <message>". -/
theorem c5_driver_prints_exactly_one_line (resolver : Resolver) :
    (driver resolver).1.length = 1 ∧
      ((∃ ip, (driver resolver).1 =
          ["The IP address for TikTok username '80alaajutt' is: " ++ ip]) ∨
        (∃ m, (driver resolver).1 = ["Error: " ++ m])) := by
  unfold driver handle_result
  cases hres : (get_ip_from_tiktok_username resolver "80alaajutt").1 with
  | ok ip => exact ⟨rfl, Or.inl ⟨ip, rfl⟩⟩
  | error e => exact ⟨rfl, Or.inr ⟨e.msg, rfl⟩⟩

/-- C6: both exception kinds the function can raise are caught by the
top-level handler and turned into a printed "Error: <message>" line, and the
process exits with code 0 on every run, success or failure alike. -/
theorem c6_errors_caught_normal_exit (resolver : Resolver) :
    (∀ e : PyError,
        handle_result "80alaajutt" (Except.error e) = (["Error: " ++ e.msg], 0)) ∧
      (driver resolver).2 = 0 := by
  refine ⟨fun e => rfl, ?_⟩
  unfold driver handle_result
  cases (get_ip_from_tiktok_username resolver "80alaajutt").1 <;> rfl

/-- C7: the driver supplies the hardcoded identifier "80alaajutt", and when
the resolver fails on the constructed URL the single printed line is exactly
"Error: Error getting IP address for 80alaajutt: <cause>". -/
theorem c7_driver_failure_line (resolver : Resolver) (cause : String)
    (hres : resolver "https://www.tiktok.com/@80alaajutt" = Except.error cause) :
    driver resolver =
      (["Error: Error getting IP address for 80alaajutt: " ++ cause], 0) := by
  unfold driver handle_result
  have h80 : ("80alaajutt" : String) ≠ "" := by decide
  rw [c3_resolution_failure_wrapped_message resolver "80alaajutt" cause h80 hres]
  rfl

/-- Witness for C7 with a resolver failing with the message text of a real
`socket.gaierror`. -/
theorem c7_driver_failure_line_witness :
    (fun _ : String =>
        Except.error (α := String) "[Errno -2] Name or service not known")
        "https://www.tiktok.com/@80alaajutt" =
      Except.error "[Errno -2] Name or service not known" ∧
      driver (fun _ => Except.error "[Errno -2] Name or service not known") =
        (["Error: Error getting IP address for 80alaajutt: [Errno -2] Name or service not known"],
         0) :=
  ⟨rfl,
    c7_driver_failure_line (fun _ => Except.error "[Errno -2] Name or service not known")
      "[Errno -2] Name or service not known" rfl⟩

/-- C8: the validator accepts every non-empty identifier, whatever its
characters or length: on a non-empty input the function never raises the
invalid-input `ValueError`, for any resolver behavior. -/
theorem c8_nonempty_never_valueerror (resolver : Resolver) (username : String)
    (h : username ≠ "") :
    ∀ m, (get_ip_from_tiktok_username resolver username).1 ≠
      Except.error (PyError.valueError m) := by
  intro m
  unfold get_ip_from_tiktok_username
  rw [if_neg h]
  cases hres : resolver ("https://www.tiktok.com/@" ++ username) <;> simp [hres]

/-- Witness for C8 at the one-character identifier "@" and a failing
resolver. -/
theorem c8_nonempty_never_valueerror_witness :
    "@" ≠ "" ∧
      ∀ m, (get_ip_from_tiktok_username (fun _ => Except.error "boom") "@").1 ≠
        Except.error (PyError.valueError m) :=
  ⟨by decide, c8_nonempty_never_valueerror (fun _ => Except.error "boom") "@" (by decide)⟩

/-- C9: the re-wrapped resolution error is of the same exception kind —
`socket.gaierror`, the kind of every resolver failure in this model — and
carries nothing but its formatted message string: the raised value is
determined by `PyError.gaiError` applied to its own message text. -/
theorem c9_wrapped_error_same_kind_message_only (resolver : Resolver)
    (username cause : String) (h : username ≠ "")
    (hres : resolver ("https://www.tiktok.com/@" ++ username) = Except.error cause) :
    ∃ e : PyError,
      (get_ip_from_tiktok_username resolver username).1 = Except.error e ∧
        e.isGai = true ∧
        e = PyError.gaiError e.msg ∧
        e.msg = "Error getting IP address for " ++ username ++ ": " ++ cause := by
  refine ⟨PyError.gaiError ("Error getting IP address for " ++ username ++ ": " ++ cause),
    c3_resolution_failure_wrapped_message resolver username cause h hres, rfl, rfl, rfl⟩

/-- Witness for C9 at identifier "bob" and a resolver failing with a fixed
cause. -/
theorem c9_wrapped_error_same_kind_message_only_witness :
    "bob" ≠ "" ∧
      ∃ e : PyError,
        (get_ip_from_tiktok_username (fun _ => Except.error "no dns") "bob").1 =
            Except.error e ∧
          e.isGai = true ∧
          e = PyError.gaiError e.msg ∧
          e.msg = "Error getting IP address for " ++ "bob" ++ ": " ++ "no dns" :=
  ⟨by decide,
    c9_wrapped_error_same_kind_message_only (fun _ => Except.error "no dns")
      "bob" "no dns" (by decide) rfl⟩

/-- C10: the function is deterministic modulo the resolver: two runs with
the same identifier whose resolvers answer identically on the constructed
URL produce identical outcomes — same returned address, or same raised
error with the same message — and the same call trace. -/
theorem c10_deterministic_modulo_resolver (r1 r2 : Resolver) (username : String)
    (hsame : r1 ("https://www.tiktok.com/@" ++ username) =
      r2 ("https://www.tiktok.com/@" ++ username)) :
    get_ip_from_tiktok_username r1 username = get_ip_from_tiktok_username r2 username := by
  unfold get_ip_from_tiktok_username
  by_cases h : username = ""
  · rw [if_pos h, if_pos h]
  · rw [if_neg h, if_neg h]
    simp only [hsame]

/-- Witness for C10 at identifier "bob" and two resolvers that agree on the
constructed URL. -/
theorem c10_deterministic_modulo_resolver_witness :
    (fun _ : String => Except.ok (ε := String) "9.9.9.9")
        ("https://www.tiktok.com/@" ++ "bob") =
      (fun s : String => if s = "https://www.tiktok.com/@bob"
          then Except.ok "9.9.9.9" else Except.error "off-trace")
        ("https://www.tiktok.com/@" ++ "bob") ∧
      get_ip_from_tiktok_username (fun _ => Except.ok "9.9.9.9") "bob" =
        get_ip_from_tiktok_username
          (fun s => if s = "https://www.tiktok.com/@bob"
            then Except.ok "9.9.9.9" else Except.error "off-trace") "bob" :=
  ⟨by rfl,
    c10_deterministic_modulo_resolver (fun _ => Except.ok "9.9.9.9")
      (fun s => if s = "https://www.tiktok.com/@bob"
        then Except.ok "9.9.9.9" else Except.error "off-trace") "bob" (by rfl)⟩
